import Mathlib

/-!
Shallow embedding of the catalog service in `src/app.py` (FastAPI inventory
application).  The process-wide mutable `catalog` dictionary becomes an
association list threaded explicitly through each handler; a handler returns
the (possibly updated) catalog together with either its JSON response or the
`HTTPException` it raised.  Python `int` is `Int`, and the `float` prices are
modelled as rationals (every seeded price has exactly two decimals, so the
rational model is exact on them); `round(x, 2)` becomes rounding of a rational
to two decimal places.
-/

/-- The `Product` Pydantic model of `src/app.py` (fields in source order). -/
structure Product where
  units : String
  qty : Int
  price : ℚ
  name : String
deriving DecidableEq

/-- The catalog: Python dict from product id to `Product`, as an association list. -/
abbrev Catalog := List (String × Product)

/-- The seeded catalog of `src/app.py` (five fixed entries). -/
def initialCatalog : Catalog :=
  [("pizza", ⟨"boxes", 1000, (1299 : ℚ)/100, "Deluxe Pizza"⟩),
   ("beer", ⟨"bottles", 500, (45 : ℚ)/10, "Craft Beer"⟩),
   ("burger", ⟨"pieces", 750, (899 : ℚ)/100, "Classic Burger"⟩),
   ("White Russians", ⟨"pieces", 1750, (1299 : ℚ)/100, "White Russians Cocktail"⟩),
   ("fries", ⟨"servings", 1200, (399 : ℚ)/100, "French Fries"⟩)]

/-- The `detail` payload of the `HTTPException`s raised in `src/app.py`.
The two 404 details are formatted strings in the source; they are modelled
structurally by the data interpolated into them: the unknown product id, and
(for `place_order` only) the comma-joined list of available product ids.
The 400 details are Python dicts and are modelled field by field. -/
inductive ErrorDetail where
  /-- Raised by `place_order` as 404: Product <id> not found. Available products: <comma list>. -/
  | notFound (product : String) (availableProducts : List String)
  /-- Raised by `restock_product` as 404: Product <id> not found (no product list). -/
  | notFoundShort (product : String)
  /-- Raised by `place_order` as a 400 dict with keys error="Insufficient stock", requested, available, product, message. -/
  | insufficientStock (requested : Int) (available : Int) (product : String) (message : String)
  /-- Raised by `place_order` as a 400 dict with keys error="Out of stock", product, message. -/
  | outOfStock (product : String) (message : String)
deriving DecidableEq

/-- An `HTTPException`: status code plus detail payload. -/
structure HTTPError where
  status_code : Nat
  detail : ErrorDetail
deriving DecidableEq

/-- The `OrderResponse` Pydantic model of `src/app.py`. -/
structure OrderResponse where
  product : String
  product_name : String
  ordered_qty : Int
  units : String
  remaining_qty : Int
  total_price : ℚ
  message : String
deriving DecidableEq

/-- Response dict returned by `restock_product` in `src/app.py`. -/
structure RestockResponse where
  product : String
  product_name : String
  previous_qty : Int
  restocked_qty : Int
  new_qty : Int
  message : String
deriving DecidableEq

/-- One per-product entry of the `GET /warehouse/inventory` response. -/
structure InventoryItem where
  name : String
  units : String
  qty : Int
  price : ℚ
  in_stock : Bool
deriving DecidableEq

/-- The `InventoryResponse` Pydantic model of `src/app.py`. -/
structure InventoryResponse where
  products : List (String × InventoryItem)
  total_products : Nat
deriving DecidableEq

/-- Python `catalog[p].qty` where the key is present (first matching entry). -/
def getQty (c : Catalog) (p : String) : Int :=
  match c.lookup p with
  | some pr => pr.qty
  | none => 0

/-- In-place mutation of the `qty` field of the entry keyed `p`
(Python `catalog[p].qty -= n` / `+= n`). -/
def modifyQty (c : Catalog) (p : String) (f : Int → Int) : Catalog :=
  c.map (fun kv => if kv.1 = p then (kv.1, { kv.2 with qty := f kv.2.qty }) else kv)

/-- Python `round(x, 2)`: round to two decimal places.  (At the inputs used in
this development `100 * x` is an integer, so no tie-breaking rule is exercised.) -/
def round2 (x : ℚ) : ℚ := ((round (100 * x) : ℤ) : ℚ) / 100

/-- Message of the insufficient-stock 400 detail. -/
def insufficientMsg (available : Int) (units : String) : String :=
  s!"Sorry, only {available} {units} available"

/-- Message of the out-of-stock 400 detail. -/
def outOfStockMsg (name : String) : String :=
  s!"Sorry, {name} is currently out of stock"

/-- Message of a successful order response. -/
def orderMsg (order_qty : Int) (units : String) (name : String) : String :=
  s!"Successfully ordered {order_qty} {units} of {name}"

/-- Message of a successful restock response. -/
def restockMsg (restock_qty : Int) (units : String) : String :=
  s!"Successfully restocked {restock_qty} {units}"

/-- Embedding of `place_order` in `src/app.py` (`GET /warehouse/{product}?order_qty=N`).
The FastAPI `Query(..., gt=0)` guarantees `0 < order_qty` at the boundary, so
positivity appears as a hypothesis of the theorems, not in the definition.
Returns the catalog after the call together with the response or the raised
`HTTPException`. -/
def place_order (catalog : Catalog) (product : String) (order_qty : Int) :
    Catalog × Except HTTPError OrderResponse :=
  match catalog.lookup product with
  | none =>
      (catalog, Except.error ⟨404, ErrorDetail.notFound product (catalog.map Prod.fst)⟩)
  | some product_data =>
      let available := product_data.qty
      if order_qty > available then
        (catalog, Except.error ⟨400,
          ErrorDetail.insufficientStock order_qty available product_data.name
            (insufficientMsg available product_data.units)⟩)
      else if available = 0 then
        (catalog, Except.error ⟨400,
          ErrorDetail.outOfStock product_data.name (outOfStockMsg product_data.name)⟩)
      else
        let catalog' := modifyQty catalog product (fun q => q - order_qty)
        let total_price := (order_qty : ℚ) * product_data.price
        (catalog', Except.ok
          { product := product
            product_name := product_data.name
            ordered_qty := order_qty
            units := product_data.units
            remaining_qty := getQty catalog' product
            total_price := round2 total_price
            message := orderMsg order_qty product_data.units product_data.name })

/-- Embedding of `restock_product` in `src/app.py` (`POST /warehouse/{product}/restock?restock_qty=N`).
The FastAPI `Query(..., gt=0)` guarantees `0 < restock_qty` at the boundary. -/
def restock_product (catalog : Catalog) (product : String) (restock_qty : Int) :
    Catalog × Except HTTPError RestockResponse :=
  match catalog.lookup product with
  | none =>
      (catalog, Except.error ⟨404, ErrorDetail.notFoundShort product⟩)
  | some _ =>
      let old_qty := getQty catalog product
      let catalog' := modifyQty catalog product (fun q => q + restock_qty)
      let new_qty := getQty catalog' product
      (catalog', Except.ok
        { product := product
          product_name := (catalog'.lookup product).map Product.name |>.getD ""
          previous_qty := old_qty
          restocked_qty := restock_qty
          new_qty := new_qty
          message := restockMsg restock_qty
            ((catalog'.lookup product).map Product.units |>.getD "") })

/-- Embedding of `get_inventory` in `src/app.py` (`GET /warehouse/inventory`).  A pure
function of the catalog: the embedding returns no updated catalog, reflecting
that the handler never mutates it. -/
def get_inventory (catalog : Catalog) : InventoryResponse :=
  { products := catalog.map (fun kv =>
      (kv.1, { name := kv.2.name
               units := kv.2.units
               qty := kv.2.qty
               price := kv.2.price
               in_stock := decide (kv.2.qty > (0 : Int)) }))
    total_products := catalog.length }

/-- Whether an order result is a success. -/
def orderIsOk : Except HTTPError OrderResponse → Bool
  | Except.ok _ => true
  | Except.error _ => false

/-- The `remaining_qty` field of a successful order result. -/
def orderRemaining : Except HTTPError OrderResponse → Option Int
  | Except.ok r => some r.remaining_qty
  | Except.error _ => none

/-- The `total_price` field of a successful order result. -/
def orderTotalPrice : Except HTTPError OrderResponse → Option ℚ
  | Except.ok r => some r.total_price
  | Except.error _ => none

/-- Whether an error detail is the out-of-stock kind. -/
def ErrorDetail.isOutOfStock : ErrorDetail → Bool
  | ErrorDetail.outOfStock _ _ => true
  | _ => false

/-- Whether an order result is the out-of-stock 400 error. -/
def orderIsOutOfStock : Except HTTPError OrderResponse → Bool
  | Except.error e => e.detail.isOutOfStock
  | Except.ok _ => false

/-- Looking up the mutated key after `modifyQty`: the stored record keeps every
field except `qty`, which is transformed by `f`. -/
theorem lookup_modifyQty_self (c : Catalog) (p : String) (f : Int → Int) :
    (modifyQty c p f).lookup p = (c.lookup p).map (fun pr => { pr with qty := f pr.qty }) := by
  induction c with
  | nil => rfl
  | cons kv tl ih =>
      obtain ⟨k, v⟩ := kv
      by_cases h : k = p
      · subst h
        simp [modifyQty, List.lookup_cons]
      · have hb : (p == k) = false := beq_eq_false_iff_ne.mpr (Ne.symm h)
        simpa [modifyQty, List.lookup_cons, h, hb] using ih

/-- Lookups at other keys are untouched by `modifyQty`. -/
theorem lookup_modifyQty_ne (c : Catalog) (p x : String) (f : Int → Int) (h : x ≠ p) :
    (modifyQty c p f).lookup x = c.lookup x := by
  induction c with
  | nil => rfl
  | cons kv tl ih =>
      obtain ⟨k, v⟩ := kv
      by_cases hk : k = p
      · subst hk
        have hb : (x == k) = false := beq_eq_false_iff_ne.mpr h
        simpa [modifyQty, List.lookup_cons, hb] using ih
      · by_cases hxk : x = k
        · subst hxk
          simp [modifyQty, List.lookup_cons, hk]
        · have hb : (x == k) = false := beq_eq_false_iff_ne.mpr hxk
          simpa [modifyQty, List.lookup_cons, hk, hb] using ih

/-- The set (list) of keys is untouched by `modifyQty`. -/
theorem keys_modifyQty (c : Catalog) (p : String) (f : Int → Int) :
    (modifyQty c p f).map Prod.fst = c.map Prod.fst := by
  simp only [modifyQty, List.map_map]
  refine List.map_congr_left ?_
  intro kv _
  by_cases h : kv.1 = p <;> simp [Function.comp, h]

/-- Looking up a product id in the inventory response yields the per-product
entry built from the stored record. -/
theorem lookup_get_inventory (c : Catalog) (x : String) :
    (get_inventory c).products.lookup x =
      (c.lookup x).map (fun v : Product =>
        { name := v.name, units := v.units, qty := v.qty, price := v.price,
          in_stock := decide (v.qty > (0 : Int)) }) := by
  simp only [get_inventory]
  induction c with
  | nil => rfl
  | cons kv tl ih =>
      obtain ⟨k, v⟩ := kv
      by_cases hxk : x = k
      · subst hxk
        simp [List.lookup_cons]
      · have hb : (x == k) = false := beq_eq_false_iff_ne.mpr hxk
        simpa [List.lookup_cons, hb] using ih

/-- Reduction of `place_order` on the success path: the product exists and the
requested quantity is positive and not above stock. -/
theorem place_order_eq_of_le (c : Catalog) (p : String) (q : Int) (pr : Product)
    (hp : c.lookup p = some pr) (hq : 0 < q) (hle : q ≤ pr.qty) :
    place_order c p q =
      (modifyQty c p (fun n => n - q),
       Except.ok
         { product := p
           product_name := pr.name
           ordered_qty := q
           units := pr.units
           remaining_qty := getQty (modifyQty c p (fun n => n - q)) p
           total_price := round2 ((q : ℚ) * pr.price)
           message := orderMsg q pr.units pr.name }) := by
  have h1 : ¬ q > pr.qty := not_lt.mpr hle
  have h2 : ¬ pr.qty = 0 := by omega
  simp [place_order, hp, h1, h2]

/-- Reduction of `restock_product` when the product exists. -/
theorem restock_eq_of_found (c : Catalog) (p : String) (q : Int) (pr : Product)
    (hp : c.lookup p = some pr) :
    restock_product c p q =
      (modifyQty c p (fun n => n + q),
       Except.ok
         { product := p
           product_name := pr.name
           previous_qty := pr.qty
           restocked_qty := q
           new_qty := pr.qty + q
           message := restockMsg q pr.units }) := by
  simp [restock_product, hp, getQty, lookup_modifyQty_self]

/-- C1: for every product id p in the catalog and every positive order
quantity q with q at most the stored qty of p, `place_order` succeeds, and
afterwards the stored qty of p is its previous value minus q, which is
nonnegative. -/
theorem order_success_decrements (c : Catalog) (p : String) (q : Int) (pr : Product)
    (hp : c.lookup p = some pr) (hq : 0 < q) (hle : q ≤ pr.qty) :
    orderIsOk (place_order c p q).2 = true ∧
    getQty (place_order c p q).1 p = getQty c p - q ∧
    0 ≤ getQty (place_order c p q).1 p := by
  rw [place_order_eq_of_le c p q pr hp hq hle]
  have hg : getQty (modifyQty c p (fun n => n - q)) p = pr.qty - q := by
    simp [getQty, lookup_modifyQty_self, hp]
  have hc : getQty c p = pr.qty := by simp [getQty, hp]
  exact ⟨rfl, by rw [hg, hc], by rw [hg]; omega⟩

/-- Witness for C1: ordering 3 pizzas from the seeded catalog. -/
theorem order_success_decrements_witness :
    initialCatalog.lookup "pizza" = some ⟨"boxes", 1000, (1299 : ℚ)/100, "Deluxe Pizza"⟩ ∧
    (0 : Int) < 3 ∧ (3 : Int) ≤ 1000 ∧
    (orderIsOk (place_order initialCatalog "pizza" 3).2 = true ∧
     getQty (place_order initialCatalog "pizza" 3).1 "pizza" = getQty initialCatalog "pizza" - 3 ∧
     0 ≤ getQty (place_order initialCatalog "pizza" 3).1 "pizza") :=
  ⟨rfl, by decide, by decide,
   order_success_decrements initialCatalog "pizza" 3
     ⟨"boxes", 1000, (1299 : ℚ)/100, "Deluxe Pizza"⟩ rfl (by decide) (by decide)⟩

/-- C2: ordering more than the stored qty of an existing product fails with
the insufficient-stock 400 error reporting requested = q and available = the
stored qty, and the catalog (hence the stored qty of p) is unchanged. -/
theorem order_insufficient_stock (c : Catalog) (p : String) (q : Int) (pr : Product)
    (hp : c.lookup p = some pr) (hq : 0 < q) (hgt : pr.qty < q) :
    (place_order c p q).2 = Except.error ⟨400,
      ErrorDetail.insufficientStock q pr.qty pr.name (insufficientMsg pr.qty pr.units)⟩ ∧
    (place_order c p q).1 = c := by
  have h1 : q > pr.qty := hgt
  constructor <;> simp [place_order, hp, h1]

/-- Witness for C2: ordering 2000 pizzas from the seeded catalog (1000 in stock). -/
theorem order_insufficient_stock_witness :
    initialCatalog.lookup "pizza" = some ⟨"boxes", 1000, (1299 : ℚ)/100, "Deluxe Pizza"⟩ ∧
    (0 : Int) < 2000 ∧ (1000 : Int) < 2000 ∧
    ((place_order initialCatalog "pizza" 2000).2 = Except.error ⟨400,
       ErrorDetail.insufficientStock 2000 1000 "Deluxe Pizza" (insufficientMsg 1000 "boxes")⟩ ∧
     (place_order initialCatalog "pizza" 2000).1 = initialCatalog) :=
  ⟨rfl, by decide, by decide,
   order_insufficient_stock initialCatalog "pizza" 2000
     ⟨"boxes", 1000, (1299 : ℚ)/100, "Deluxe Pizza"⟩ rfl (by decide) (by decide)⟩

/-- C3: ordering a product id absent from the catalog fails with the 404
not-found error whose payload carries exactly the list of valid product ids,
and the whole catalog is unchanged. -/
theorem order_not_found (c : Catalog) (p : String) (q : Int)
    (hp : c.lookup p = none) (hq : 0 < q) :
    (place_order c p q).2 = Except.error ⟨404, ErrorDetail.notFound p (c.map Prod.fst)⟩ ∧
    (place_order c p q).1 = c := by
  constructor <;> simp [place_order, hp]

/-- Witness for C3: ordering the unknown product soda from the seeded catalog. -/
theorem order_not_found_witness :
    initialCatalog.lookup "soda" = none ∧ (0 : Int) < 1 ∧
    ((place_order initialCatalog "soda" 1).2 = Except.error ⟨404,
       ErrorDetail.notFound "soda" (initialCatalog.map Prod.fst)⟩ ∧
     (place_order initialCatalog "soda" 1).1 = initialCatalog) :=
  ⟨rfl, by decide, order_not_found initialCatalog "soda" 1 rfl (by decide)⟩

/-- C4: under the boundary guarantee that the order quantity is positive, the
out-of-stock branch of `place_order` is dead: no call returns the out-of-stock
error, because a zero stock already fails the earlier strict insufficiency
check. -/
theorem order_out_of_stock_unreachable (c : Catalog) (p : String) (q : Int) (hq : 0 < q) :
    orderIsOutOfStock (place_order c p q).2 = false := by
  rcases hc : c.lookup p with _ | pr
  · simp [place_order, hc, orderIsOutOfStock, ErrorDetail.isOutOfStock]
  · by_cases h1 : q > pr.qty
    · simp [place_order, hc, h1, orderIsOutOfStock, ErrorDetail.isOutOfStock]
    · have h2 : ¬ pr.qty = 0 := by omega
      simp [place_order, hc, h1, h2, orderIsOutOfStock]

/-- A one-entry catalog whose single product has zero stock, exercising the
interesting case of C4. -/
def zeroStockCatalog : Catalog := [("pizza", ⟨"boxes", 0, (1299 : ℚ)/100, "Deluxe Pizza"⟩)]

/-- Witness for C4: even at zero stock, a positive order does not produce the
out-of-stock error (it fails the insufficiency check first). -/
theorem order_out_of_stock_unreachable_witness :
    (0 : Int) < 1 ∧ orderIsOutOfStock (place_order zeroStockCatalog "pizza" 1).2 = false :=
  ⟨by decide, order_out_of_stock_unreachable zeroStockCatalog "pizza" 1 (by decide)⟩

/-- C5: restocking an existing product by a positive quantity succeeds, adds
the quantity to the stored qty, and returns previous, restocked and new
quantities; restocking an absent product id fails with 404 not-found and
changes nothing. -/
theorem restock_spec (c : Catalog) (p : String) (q : Int) (pr : Product) (hq : 0 < q) :
    (c.lookup p = some pr →
       (restock_product c p q).2 =
         Except.ok ⟨p, pr.name, pr.qty, q, pr.qty + q, restockMsg q pr.units⟩ ∧
       getQty (restock_product c p q).1 p = getQty c p + q) ∧
    (c.lookup p = none →
       (restock_product c p q).2 = Except.error ⟨404, ErrorDetail.notFoundShort p⟩ ∧
       (restock_product c p q).1 = c) := by
  constructor
  · intro hp
    rw [restock_eq_of_found c p q pr hp]
    refine ⟨rfl, ?_⟩
    simp [getQty, lookup_modifyQty_self, hp]
  · intro hp
    constructor <;> simp [restock_product, hp]

/-- Witness for C5: restocking beer by 50 from 500 gives 550 (success part),
and restocking the unknown soda leaves the catalog unchanged (not-found part). -/
theorem restock_spec_witness :
    initialCatalog.lookup "beer" = some ⟨"bottles", 500, (45 : ℚ)/10, "Craft Beer"⟩ ∧
    (0 : Int) < 50 ∧
    (restock_product initialCatalog "beer" 50).2 =
      Except.ok ⟨"beer", "Craft Beer", 500, 50, 550, restockMsg 50 "bottles"⟩ ∧
    getQty (restock_product initialCatalog "beer" 50).1 "beer" =
      getQty initialCatalog "beer" + 50 ∧
    initialCatalog.lookup "soda" = none ∧
    (restock_product initialCatalog "soda" 50).1 = initialCatalog :=
  ⟨rfl, by decide,
   ((restock_spec initialCatalog "beer" 50
       ⟨"bottles", 500, (45 : ℚ)/10, "Craft Beer"⟩ (by decide)).1 rfl).1,
   ((restock_spec initialCatalog "beer" 50
       ⟨"bottles", 500, (45 : ℚ)/10, "Craft Beer"⟩ (by decide)).1 rfl).2,
   rfl,
   ((restock_spec initialCatalog "soda" 50
       ⟨"bottles", 500, (45 : ℚ)/10, "Craft Beer"⟩ (by decide)).2 rfl).2⟩

/-- C6: the inventory response counts exactly the catalog entries, reports for
each product id the stored qty, and flags in_stock exactly when that qty is
positive.  (`get_inventory` is a pure function of the catalog, so the call has
no side effect on it by construction.) -/
theorem inventory_spec (c : Catalog) :
    (get_inventory c).total_products = c.length ∧
    (∀ x, ((get_inventory c).products.lookup x).map InventoryItem.qty =
            (c.lookup x).map Product.qty) ∧
    (∀ e ∈ (get_inventory c).products, e.2.in_stock = decide ((0 : Int) < e.2.qty)) := by
  refine ⟨rfl, ?_, ?_⟩
  · intro x
    rw [lookup_get_inventory]
    cases c.lookup x <;> rfl
  · intro e he
    simp only [get_inventory, List.mem_map] at he
    obtain ⟨kv, _, rfl⟩ := he
    rfl

/-- Witness for C6 on the seeded catalog: the count, the pizza qty, and the
in_stock flag of the pizza entry. -/
theorem inventory_spec_witness :
    (get_inventory initialCatalog).total_products = initialCatalog.length ∧
    ((get_inventory initialCatalog).products.lookup "pizza").map InventoryItem.qty =
      (initialCatalog.lookup "pizza").map Product.qty ∧
    (true = decide ((0 : Int) < 1000)) :=
  ⟨(inventory_spec initialCatalog).1,
   (inventory_spec initialCatalog).2.1 "pizza",
   (inventory_spec initialCatalog).2.2
     ("pizza", ⟨"Deluxe Pizza", "boxes", 1000, (1299 : ℚ)/100, true⟩)
     (List.mem_cons_self _ _)⟩

/-- C7: ordering q of an in-stock product and then restocking the same q
returns its stored qty to the original value. -/
theorem order_restock_roundtrip (c : Catalog) (p : String) (q : Int) (pr : Product)
    (hp : c.lookup p = some pr) (hq : 0 < q) (hle : q ≤ pr.qty) :
    getQty (restock_product (place_order c p q).1 p q).1 p = getQty c p := by
  rw [place_order_eq_of_le c p q pr hp hq hle]
  have hp1 : (modifyQty c p (fun n => n - q)).lookup p =
      some { pr with qty := pr.qty - q } := by
    rw [lookup_modifyQty_self, hp]; rfl
  rw [restock_eq_of_found _ p q _ hp1]
  have : getQty (modifyQty (modifyQty c p (fun n => n - q)) p (fun n => n + q)) p =
      pr.qty - q + q := by
    simp [getQty, lookup_modifyQty_self, hp1]
  rw [this]
  simp [getQty, hp]

/-- Witness for C7: order 3 pizzas then restock 3 pizzas, back to the original qty. -/
theorem order_restock_roundtrip_witness :
    initialCatalog.lookup "pizza" = some ⟨"boxes", 1000, (1299 : ℚ)/100, "Deluxe Pizza"⟩ ∧
    (0 : Int) < 3 ∧ (3 : Int) ≤ 1000 ∧
    getQty (restock_product (place_order initialCatalog "pizza" 3).1 "pizza" 3).1 "pizza" =
      getQty initialCatalog "pizza" :=
  ⟨rfl, by decide, by decide,
   order_restock_roundtrip initialCatalog "pizza" 3
     ⟨"boxes", 1000, (1299 : ℚ)/100, "Deluxe Pizza"⟩ rfl (by decide) (by decide)⟩

/-- C8: every successful order returns total_price = order quantity times the
unit price of the product, rounded to two decimal places. -/
theorem order_total_price (c : Catalog) (p : String) (q : Int) (pr : Product)
    (hp : c.lookup p = some pr) (hq : 0 < q) (hle : q ≤ pr.qty) :
    orderTotalPrice (place_order c p q).2 = some (round2 ((q : ℚ) * pr.price)) := by
  rw [place_order_eq_of_le c p q pr hp hq hle]
  rfl

/-- Witness for C8, the seeded scenario: 3 pizzas at price 12.99 cost 38.97
and leave 997 in stock. -/
theorem order_total_price_witness :
    initialCatalog.lookup "pizza" = some ⟨"boxes", 1000, (1299 : ℚ)/100, "Deluxe Pizza"⟩ ∧
    (0 : Int) < 3 ∧ (3 : Int) ≤ 1000 ∧
    orderTotalPrice (place_order initialCatalog "pizza" 3).2 = some ((3897 : ℚ)/100) ∧
    orderRemaining (place_order initialCatalog "pizza" 3).2 = some 997 :=
  ⟨rfl, by decide, by decide,
   (order_total_price initialCatalog "pizza" 3
      ⟨"boxes", 1000, (1299 : ℚ)/100, "Deluxe Pizza"⟩ rfl (by decide) (by decide)).trans
     (by norm_num [round2]),
   by decide⟩

/-- Frame relation between a catalog before and after a call on product id p:
the key list is unchanged, every other product is entirely unchanged, and the
name, units and price of p itself are unchanged. -/
def FramePreserved (c cAfter : Catalog) (p : String) : Prop :=
  cAfter.map Prod.fst = c.map Prod.fst ∧
  (∀ x, x ≠ p → cAfter.lookup x = c.lookup x) ∧
  (cAfter.lookup p).map Product.name = (c.lookup p).map Product.name ∧
  (cAfter.lookup p).map Product.units = (c.lookup p).map Product.units ∧
  (cAfter.lookup p).map Product.price = (c.lookup p).map Product.price

/-- An unchanged catalog trivially satisfies the frame relation. -/
theorem framePreserved_refl (c : Catalog) (p : String) : FramePreserved c c p :=
  ⟨rfl, fun _ _ => rfl, rfl, rfl, rfl⟩

/-- Mutating only the qty of p satisfies the frame relation. -/
theorem framePreserved_modifyQty (c : Catalog) (p : String) (f : Int → Int) :
    FramePreserved c (modifyQty c p f) p := by
  refine ⟨keys_modifyQty c p f, fun x hx => lookup_modifyQty_ne c p x f hx, ?_, ?_, ?_⟩ <;>
    · rw [lookup_modifyQty_self]
      cases c.lookup p <;> rfl

/-- C9: every `place_order` or `restock_product` call on product id p,
successful or failing, keeps the key set of the catalog, leaves every other
product entirely unchanged, and leaves the name, units and price of p itself
unchanged — only the qty of p may change. -/
theorem order_restock_frame (c : Catalog) (p : String) (n : Int) :
    FramePreserved c (place_order c p n).1 p ∧
    FramePreserved c (restock_product c p n).1 p := by
  constructor
  · rcases hc : c.lookup p with _ | pr
    · simpa [place_order, hc] using framePreserved_refl c p
    · by_cases h1 : n > pr.qty
      · simpa [place_order, hc, h1] using framePreserved_refl c p
      · by_cases h2 : pr.qty = 0
        · simp only [place_order, hc]
          rw [if_neg h1, if_pos h2]
          exact framePreserved_refl c p
        · simp only [place_order, hc]
          rw [if_neg h1, if_neg h2]
          exact framePreserved_modifyQty c p (fun m => m - n)
  · rcases hc : c.lookup p with _ | pr
    · simpa [restock_product, hc] using framePreserved_refl c p
    · simpa [restock_product, hc] using framePreserved_modifyQty c p (fun m => m + n)

/-- C10: ordering exactly the available quantity of an in-stock product
succeeds (the insufficiency check is strict and the out-of-stock check is
passed), leaves the stored qty at 0, and the returned remaining_qty is the
stored qty after the mutation. -/
theorem order_exact_available (c : Catalog) (p : String) (pr : Product)
    (hp : c.lookup p = some pr) (hpos : 0 < pr.qty) :
    orderIsOk (place_order c p pr.qty).2 = true ∧
    getQty (place_order c p pr.qty).1 p = 0 ∧
    orderRemaining (place_order c p pr.qty).2 =
      some (getQty (place_order c p pr.qty).1 p) := by
  rw [place_order_eq_of_le c p pr.qty pr hp hpos le_rfl]
  have hg : getQty (modifyQty c p (fun n => n - pr.qty)) p = 0 := by
    simp [getQty, lookup_modifyQty_self, hp]
  exact ⟨rfl, hg, rfl⟩

/-- Witness for C10: ordering all 1000 pizzas of the seeded catalog empties the stock. -/
theorem order_exact_available_witness :
    initialCatalog.lookup "pizza" = some ⟨"boxes", 1000, (1299 : ℚ)/100, "Deluxe Pizza"⟩ ∧
    (0 : Int) < 1000 ∧
    (orderIsOk (place_order initialCatalog "pizza" 1000).2 = true ∧
     getQty (place_order initialCatalog "pizza" 1000).1 "pizza" = 0 ∧
     orderRemaining (place_order initialCatalog "pizza" 1000).2 =
       some (getQty (place_order initialCatalog "pizza" 1000).1 "pizza")) :=
  ⟨rfl, by decide,
   order_exact_available initialCatalog "pizza"
     ⟨"boxes", 1000, (1299 : ℚ)/100, "Deluxe Pizza"⟩ rfl (by decide)⟩
